import Mathlib

/-!
Verification of the wallet/session-bridge coordination logic of the
cross-access mobile wallet application.

The embedding models, from the source:
  * the `WalletService` singleton (src/services/WalletService.ts):
    wallet registry, key persistence, provider/alchemy client tables and
    the balance / token / transaction / signing operations;
  * the session bridge of the browser screen (same file, second part):
    `handleSessionProposal`, `handleSessionRequest`, `handleEthereumRequest`.

External libraries (ethers, alchemy-sdk, AsyncStorage, the WalletConnect
client) are consumed through narrow interfaces only; they are modelled by
an explicit environment record `Env` whose fields stand for the library
calls the code makes. Operations return, besides their result, the list
of external calls they attempted (`ExtCall`), so that "no external call
is attempted" is a statement about that trace. The session bridge's
`Alert`-button control flow is modelled by passing the user's choice as
an explicit argument; each handler returns the list of observable
`BridgeAction`s it performs, in order.
-/

/-- The supported chains: enum ChainType of WalletService.ts. -/
inductive ChainType
  | ethereum
  | polygon
  | solana
  | binance
deriving DecidableEq, Repr

/-- The string value of a ChainType enum member ('ethereum', ...). -/
def chainKey : ChainType → String
  | .ethereum => "ethereum"
  | .polygon => "polygon"
  | .solana => "solana"
  | .binance => "binance"

/-- Alchemy SDK network identifiers are plain strings. -/
abbrev Network := String

def ETH_MAINNET : Network := "eth-mainnet"

def ETH_GOERLI : Network := "eth-goerli"

def MATIC_MAINNET : Network := "polygon-mainnet"

def MATIC_MUMBAI : Network := "polygon-mumbai"

/-- CHAIN_NETWORKS: map from chain to its (display name, network) list.
The source object has entries only for ethereum and polygon. -/
def CHAIN_NETWORKS : ChainType → List (String × Network)
  | .ethereum => [("Ethereum", ETH_MAINNET), ("Goerli", ETH_GOERLI)]
  | .polygon => [("Polygon", MATIC_MAINNET), ("Mumbai", MATIC_MUMBAI)]
  | _ => []

/-- An ethers.js Wallet value: a private key and its derived address. -/
structure EthersWallet where
  privateKey : String
  address : String
deriving DecidableEq, Repr

/-- Metadata returned by alchemy.core.getTokenMetadata (all fields nullable). -/
structure TokenMetadata where
  symbol : Option String
  name : Option String
  decimals : Option Nat
  logo : Option String
deriving DecidableEq, Repr

/-- Token record built by getTokenBalances. -/
structure Token where
  symbol : String
  name : String
  decimals : Nat
  address : String
  chainType : ChainType
  logoURI : Option String
deriving DecidableEq, Repr

/-- TokenBalance record built by getTokenBalances. -/
structure TokenBalance where
  token : Token
  balance : String
  value : String
deriving DecidableEq, Repr

/-- One element of alchemy.core.getTokenBalances(...).tokenBalances:
a contract address and a nullable balance string. -/
structure RawTokenBalance where
  contractAddress : String
  tokenBalance : Option String
deriving DecidableEq, Repr

/-- One element of alchemy.core.getAssetTransfers(...).transfers.
value is a nullable number (modelled as Nat); blockTimestamp, when
present, is already converted to epoch milliseconds. -/
structure RawTransfer where
  hash : String
  fromAddr : String
  toAddr : String
  value : Option Nat
  blockTimestamp : Option Nat
deriving DecidableEq, Repr

inductive TxStatus
  | pending
  | confirmed
  | failed
deriving DecidableEq, Repr

/-- Transaction record (interface Transaction of WalletService.ts). -/
structure Transaction where
  hash : String
  fromAddr : String
  toAddr : String
  value : String
  timestamp : Nat
  status : TxStatus
  chainType : ChainType
  network : Network
deriving DecidableEq, Repr

/-- The errors WalletService throws, one constructor per distinct throw
site: 'Wallet not found', 'Invalid private key', 'Invalid mnemonic
phrase', a parseEther failure, 'Provider not found for ...',
'Alchemy instance not found for ...', and failures propagating from an
external call. -/
inductive WErr
  | walletNotFound
  | invalidPrivateKey
  | invalidMnemonic
  | invalidAmount
  | providerNotFound (c : ChainType) (n : Network)
  | alchemyNotFound (c : ChainType) (n : Network)
  | externalError (msg : String)
deriving DecidableEq, Repr

/-- External calls an operation may attempt, in order. -/
inductive ExtCall
  | providerGetBalance (c : ChainType) (n : Network) (addr : String)
  | providerSendTx (c : ChainType) (n : Network) (toAddr value : String)
  | walletSign (addr msg : String)
  | alchemyGetTokenBalances (c : ChainType) (n : Network) (addr : String)
  | alchemyGetTokenMetadata (contract : String)
  | alchemyGetAssetTransfers (c : ChainType) (n : Network) (addr : String)
  | storageSetItem (key value : String)
  | storageGetItem (key : String)
deriving DecidableEq, Repr

/-- Calls that go to an external client over the network or to the signer
transport (everything except the local key-value store). -/
def ExtCall.isClientCall : ExtCall → Bool
  | .storageSetItem _ _ => false
  | .storageGetItem _ => false
  | _ => true

/-- The behaviour of the external libraries the service delegates to.
Theorems quantify over every environment, so nothing is assumed about
the libraries beyond their interface shapes. -/
structure Env where
  /-- ethers.Wallet.createRandom() -/
  randomWallet : EthersWallet
  /-- new ethers.Wallet(privateKey); none models a constructor throw. -/
  walletFromKey : String → Option EthersWallet
  /-- ethers.Wallet.fromMnemonic(mnemonic); none models a throw. -/
  walletFromMnemonic : String → Option EthersWallet
  /-- whether AsyncStorage.setItem(key, value) succeeds. -/
  storageSetItemOk : String → String → Bool
  /-- AsyncStorage.getItem(key); none models null. -/
  storageGetItem : String → Option String
  /-- provider.getBalance(address): raw balance or a rejection. -/
  providerGetBalance : ChainType → Network → String → Except String String
  /-- formatEther from @ethersproject/units. -/
  formatEther : String → String
  /-- ethers.utils.parseEther(amount); none models a throw. -/
  parseEther : String → Option String
  /-- connectedWallet.sendTransaction: transaction hash or rejection. -/
  sendTx : ChainType → Network → String → String → String → Except String String
  /-- wallet.signMessage(message): signature or rejection. -/
  sign : EthersWallet → String → Except String String
  /-- alchemy.core.getTokenBalances(address).tokenBalances -/
  alchemyTokenBalances : ChainType → Network → String → List RawTokenBalance
  /-- alchemy.core.getTokenMetadata(contractAddress) -/
  alchemyTokenMetadata : String → TokenMetadata
  /-- alchemy.core.getAssetTransfers(...).transfers -/
  alchemyAssetTransfers : ChainType → Network → String → List RawTransfer
  /-- Date.now() -/
  now : Nat

/-- The wallets field of WalletService: one nullable ethers.Wallet per
ChainType. -/
structure WalletMap where
  eth : Option EthersWallet
  poly : Option EthersWallet
  sol : Option EthersWallet
  bnb : Option EthersWallet
deriving DecidableEq, Repr

def WalletMap.get (m : WalletMap) : ChainType → Option EthersWallet
  | .ethereum => m.eth
  | .polygon => m.poly
  | .solana => m.sol
  | .binance => m.bnb

def WalletMap.set (m : WalletMap) : ChainType → Option EthersWallet → WalletMap
  | .ethereum, w => { m with eth := w }
  | .polygon, w => { m with poly := w }
  | .solana, w => { m with sol := w }
  | .binance, w => { m with bnb := w }

/-- Association-list update for the key-value store. -/
def setAssoc : List (String × String) → String → String → List (String × String)
  | [], k, v => [(k, v)]
  | (k', v') :: rest, k, v =>
      if k' = k then (k, v) :: rest else (k', v') :: setAssoc rest k v

/-- Association-list lookup for the key-value store. -/
def getAssoc : List (String × String) → String → Option String
  | [], _ => none
  | (k', v') :: rest, k => if k' = k then some v' else getAssoc rest k

/-- Whether the client table holds an entry for (chain, network);
the source keys the table by the string `chainType ++ "_" ++ network`,
which is injective in (chainType, network), so a pair list is used. -/
def registeredIn (tbl : List (ChainType × Network)) (c : ChainType) (n : Network) : Bool :=
  tbl.any fun p => p.1 = c && p.2 = n

/-- The mutable state of the WalletService singleton plus the persisted
key-value store. -/
structure WSState where
  wallets : WalletMap
  providers : List (ChainType × Network)
  alchemy : List (ChainType × Network)
  storage : List (String × String)
deriving DecidableEq, Repr

/-- State at first construction: no wallets, empty client tables. -/
def initialState (store : List (String × String)) : WSState :=
  { wallets := ⟨none, none, none, none⟩, providers := [], alchemy := [], storage := store }

/-- hasWallet(chainType): wallets[chainType] !== null. -/
def hasWallet (s : WSState) (c : ChainType) : Bool :=
  (s.wallets.get c).isSome

/-- getWalletAddress(chainType): wallets[chainType]?.address || null.
The || null step turns an empty address string into null (JS falsiness). -/
def getWalletAddress (s : WSState) (c : ChainType) : Option String :=
  match s.wallets.get c with
  | some w => if w.address = "" then none else some w.address
  | none => none

/-- saveWallet(chainType, privateKey): attempts AsyncStorage.setItem and
swallows (only logs) any failure. Returns the store after the attempt and
the attempted call. -/
def saveWallet (env : Env) (store : List (String × String)) (c : ChainType)
    (pk : String) : List (String × String) × List ExtCall :=
  let key := "wallet_" ++ chainKey c
  if env.storageSetItemOk key pk then
    (setAssoc store key pk, [.storageSetItem key pk])
  else
    (store, [.storageSetItem key pk])

/-- createWallet(chainType): generates a fresh wallet, installs it in the
registry, persists the key (failures swallowed), returns the address.
ethers.Wallet.createRandom does not fail, so the operation is infallible. -/
def createWallet (env : Env) (s : WSState) (c : ChainType) :
    String × List ExtCall × WSState :=
  let w := env.randomWallet
  let s1 := { s with wallets := s.wallets.set c (some w) }
  let saved := saveWallet env s1.storage c w.privateKey
  (w.address, saved.2, { s1 with storage := saved.1 })

/-- importWallet(chainType, privateKey): parses the key with the ethers
constructor; a parse failure throws 'Invalid private key' before any
mutation; otherwise installs and persists like createWallet. -/
def importWallet (env : Env) (s : WSState) (c : ChainType) (pk : String) :
    Except WErr String × List ExtCall × WSState :=
  match env.walletFromKey pk with
  | none => (.error .invalidPrivateKey, [], s)
  | some w =>
    let s1 := { s with wallets := s.wallets.set c (some w) }
    let saved := saveWallet env s1.storage c pk
    (.ok w.address, saved.2, { s1 with storage := saved.1 })

/-- importWalletFromMnemonic(chainType, mnemonic): like importWallet but
derives from a mnemonic and persists the derived private key. -/
def importWalletFromMnemonic (env : Env) (s : WSState) (c : ChainType)
    (mn : String) : Except WErr String × List ExtCall × WSState :=
  match env.walletFromMnemonic mn with
  | none => (.error .invalidMnemonic, [], s)
  | some w =>
    let s1 := { s with wallets := s.wallets.set c (some w) }
    let saved := saveWallet env s1.storage c w.privateKey
    (.ok w.address, saved.2, { s1 with storage := saved.1 })

/-- getBalance(chainType, network): wallet gate, then provider lookup,
then provider.getBalance, then formatEther. -/
def getBalance (env : Env) (s : WSState) (c : ChainType) (n : Network) :
    Except WErr String × List ExtCall :=
  match s.wallets.get c with
  | none => (.error .walletNotFound, [])
  | some w =>
    if registeredIn s.providers c n then
      match env.providerGetBalance c n w.address with
      | .ok b => (.ok (env.formatEther b), [.providerGetBalance c n w.address])
      | .error m => (.error (.externalError m), [.providerGetBalance c n w.address])
    else
      (.error (.providerNotFound c n), [])

/-- sendTransaction(chainType, network, to, amount): wallet gate, provider
lookup, parseEther, then the signed send; returns a pending Transaction
with the hash. -/
def sendTransaction (env : Env) (s : WSState) (c : ChainType) (n : Network)
    (toAddr amount : String) : Except WErr Transaction × List ExtCall :=
  match s.wallets.get c with
  | none => (.error .walletNotFound, [])
  | some w =>
    if registeredIn s.providers c n then
      match env.parseEther amount with
      | none => (.error .invalidAmount, [])
      | some _ =>
        match env.sendTx c n w.address toAddr amount with
        | .ok h =>
            (.ok { hash := h, fromAddr := w.address, toAddr := toAddr, value := amount,
                   timestamp := env.now, status := .pending, chainType := c,
                   network := n },
             [.providerSendTx c n toAddr amount])
        | .error m => (.error (.externalError m), [.providerSendTx c n toAddr amount])
    else
      (.error (.providerNotFound c n), [])

/-- signMessage(chainType, message): wallet gate then wallet.signMessage. -/
def signMessage (env : Env) (s : WSState) (c : ChainType) (msg : String) :
    Except WErr String × List ExtCall :=
  match s.wallets.get c with
  | none => (.error .walletNotFound, [])
  | some w =>
    match env.sign w msg with
    | .ok sg => (.ok sg, [.walletSign w.address msg])
    | .error m => (.error (.externalError m), [.walletSign w.address msg])

/-- JS `x || d` on a nullable string: null and the empty string fall back. -/
def jsOrStr (o : Option String) (d : String) : String :=
  match o with
  | some v => if v = "" then d else v
  | none => d

/-- JS `x || d` on a nullable number: null and 0 fall back. -/
def jsOrNat (o : Option Nat) (d : Nat) : Nat :=
  match o with
  | some v => if v = 0 then d else v
  | none => d

/-- The loop body of getTokenBalances: for each raw balance whose
tokenBalance is truthy, fetch the contract metadata and build a
TokenBalance entry. -/
def processTokenBalances (env : Env) (c : ChainType) :
    List RawTokenBalance → List TokenBalance × List ExtCall
  | [] => ([], [])
  | tb :: rest =>
    match tb.tokenBalance with
    | some bal =>
      if bal = "" then processTokenBalances env c rest
      else
        let md := env.alchemyTokenMetadata tb.contractAddress
        let done := processTokenBalances env c rest
        (⟨⟨jsOrStr md.symbol "Unknown", jsOrStr md.name "Unknown Token",
           jsOrNat md.decimals 18, tb.contractAddress, c, md.logo⟩,
          env.formatEther bal, "0.00"⟩ :: done.1,
         .alchemyGetTokenMetadata tb.contractAddress :: done.2)
    | none => processTokenBalances env c rest

/-- getTokenBalances(chainType, network): wallet gate; ethereum/polygon
delegate to Alchemy through the client-table lookup; other chains return
the empty list. -/
def getTokenBalances (env : Env) (s : WSState) (c : ChainType) (n : Network) :
    Except WErr (List TokenBalance) × List ExtCall :=
  match s.wallets.get c with
  | none => (.error .walletNotFound, [])
  | some w =>
    if c = .ethereum || c = .polygon then
      if registeredIn s.alchemy c n then
        let raw := env.alchemyTokenBalances c n w.address
        let done := processTokenBalances env c raw
        (.ok done.1, .alchemyGetTokenBalances c n w.address :: done.2)
      else
        (.error (.alchemyNotFound c n), [])
    else
      (.ok [], [])

/-- The transfer-to-Transaction mapping of getTransactionHistory. -/
def transferToTransaction (env : Env) (c : ChainType) (n : Network)
    (t : RawTransfer) : Transaction :=
  { hash := t.hash, fromAddr := t.fromAddr, toAddr := t.toAddr,
    value := match t.value with
             | some v => if v = 0 then "0" else toString v
             | none => "0",
    timestamp := match t.blockTimestamp with
                 | some ts => ts
                 | none => env.now,
    status := .confirmed, chainType := c, network := n }

/-- getTransactionHistory(chainType, network): wallet gate;
ethereum/polygon delegate to Alchemy asset transfers; other chains return
the empty list. -/
def getTransactionHistory (env : Env) (s : WSState) (c : ChainType)
    (n : Network) : Except WErr (List Transaction) × List ExtCall :=
  match s.wallets.get c with
  | none => (.error .walletNotFound, [])
  | some w =>
    if c = .ethereum || c = .polygon then
      if registeredIn s.alchemy c n then
        let hist := env.alchemyAssetTransfers c n w.address
        (.ok (hist.map (transferToTransaction env c n)),
         [.alchemyGetAssetTransfers c n w.address])
      else
        (.error (.alchemyNotFound c n), [])
    else
      (.ok [], [])

/-- The fixed set of (chain, network) client keys setupProviders installs
for both the provider table and the Alchemy table. -/
def fixedClientTable : List (ChainType × Network) :=
  [(.ethereum, ETH_MAINNET), (.ethereum, ETH_GOERLI),
   (.polygon, MATIC_MAINNET), (.polygon, MATIC_MUMBAI)]

/-- Assigning a key into a table keyed by (chain, network): adds the key
when absent (re-assignment replaces the client handle, which the
membership view does not record). -/
def upsertClient (tbl : List (ChainType × Network)) (k : ChainType × Network) :
    List (ChainType × Network) :=
  if tbl.any (fun p => p.1 = k.1 && p.2 = k.2) then tbl else tbl ++ [k]

/-- setupProviders(): assigns the four fixed provider keys and the four
fixed Alchemy keys into the client tables. -/
def setupProviders (s : WSState) : WSState :=
  { s with providers := fixedClientTable.foldl upsertClient s.providers,
           alchemy := fixedClientTable.foldl upsertClient s.alchemy }

/-- The loop of loadWallets, in Object.values(ChainType) order, modelling
the surrounding try/catch: a stored key the ethers constructor rejects
aborts the whole loop (the catch only logs). -/
def loadWalletsGo (env : Env) (s : WSState) :
    List ChainType → WSState × List ExtCall
  | [] => (s, [])
  | c :: rest =>
    let key := "wallet_" ++ chainKey c
    match env.storageGetItem key with
    | none =>
      let done := loadWalletsGo env s rest
      (done.1, .storageGetItem key :: done.2)
    | some pk =>
      if pk = "" then
        let done := loadWalletsGo env s rest
        (done.1, .storageGetItem key :: done.2)
      else
        match env.walletFromKey pk with
        | none => (s, [.storageGetItem key])
        | some w =>
          let done :=
            loadWalletsGo env { s with wallets := s.wallets.set c (some w) } rest
          (done.1, .storageGetItem key :: done.2)

/-- loadWallets(): restore every persisted wallet. -/
def loadWallets (env : Env) (s : WSState) : WSState × List ExtCall :=
  loadWalletsGo env s [.ethereum, .polygon, .solana, .binance]

/-- Models the initialize() method: loadWallets then setupProviders. -/
def serviceInit (env : Env) (s : WSState) : WSState × List ExtCall :=
  let loaded := loadWallets env s
  (setupProviders loaded.1, loaded.2)

/-- The required namespace object of a WalletConnect session proposal.
The handler reads only methods and events; chains records which chains
the dApp requests under this namespace and is ignored by the code. -/
structure RequiredNamespace where
  chains : List String
  methods : List String
  events : List String
deriving DecidableEq, Repr

/-- The namespace entry placed into the session approval. -/
structure NamespaceEntry where
  accounts : List String
  methods : List String
  events : List String
deriving DecidableEq, Repr

/-- A WalletConnect session proposal event: id, proposer metadata name,
and the required namespaces keyed by namespace name. -/
structure SessionProposal where
  id : Nat
  proposerName : String
  requiredNamespaces : List (String × RequiredNamespace)
deriving DecidableEq, Repr

/-- A WalletConnect session request event. The three param fields carry
methodParams[0].to, methodParams[0].value and methodParams[0]
respectively; the handler reads only the fields its method needs. -/
structure SessionRequestEvent where
  id : Nat
  topic : String
  method : String
  paramTo : String
  paramValue : String
  paramMessage : String
deriving DecidableEq, Repr

/-- An embedded-page provider request: id and method. -/
structure EthRequest where
  id : Nat
  method : String
deriving DecidableEq, Repr

/-- The observable actions of the session bridge, in execution order.
promptUser is an Alert that offers the user a decision; showAlert is a
purely informational Alert; the call actions mark invocations of the
Wallet Registry; the remaining actions are messages delivered to the
remote peer (WalletConnect client) or injected into the embedded page. -/
inductive BridgeAction
  | promptUser (title message : String)
  | showAlert (title message : String)
  | callCreateWallet (c : ChainType)
  | callSendTransaction (c : ChainType) (n : Network) (toAddr value : String)
  | callSignMessage (c : ChainType) (msg : String)
  | approveSession (id : Nat) (namespaces : List (String × NamespaceEntry))
  | rejectSession (id : Nat) (code : Nat) (msg : String)
  | respondSessionRequest (topic : String) (id : Nat) (result : String)
  | injectResult (id : Nat) (vals : List String)
  | injectError (id : Nat) (code : Nat) (msg : String)
deriving DecidableEq, Repr

/-- Actions that invoke a Wallet Registry operation. -/
def BridgeAction.isRegistryCall : BridgeAction → Bool
  | .callCreateWallet _ => true
  | .callSendTransaction _ _ _ _ => true
  | .callSignMessage _ _ => true
  | _ => false

/-- Actions that disclose an account or change chain state: approving a
session (accounts disclosed), answering eth_requestAccounts (address
disclosed), sending a transaction, producing a signature. -/
def BridgeAction.isDisclosingOrStateChanging : BridgeAction → Bool
  | .approveSession _ _ => true
  | .callSendTransaction _ _ _ _ => true
  | .callSignMessage _ _ => true
  | .injectResult _ _ => true
  | _ => false

/-- Actions that present the user an explicit decision prompt. -/
def BridgeAction.isApprovalPrompt : BridgeAction → Bool
  | .promptUser _ _ => true
  | _ => false

/-- Actions addressed to the remote WalletConnect peer. -/
def BridgeAction.isPeerResponse : BridgeAction → Bool
  | .approveSession _ _ => true
  | .rejectSession _ _ _ => true
  | .respondSessionRequest _ _ _ => true
  | _ => false

/-- The callSendTransaction marker alone. -/
def BridgeAction.isSendTxCall : BridgeAction → Bool
  | .callSendTransaction _ _ _ _ => true
  | _ => false

/-- The two buttons of the wallet-required Alert. -/
inductive WalletGateChoice
  | cancel
  | create
deriving DecidableEq, Repr

/-- The two buttons of a transaction or signature confirmation Alert. -/
inductive UserChoice
  | approve
  | reject
deriving DecidableEq, Repr

/-- CHAIN_NETWORKS[ChainType.ETHEREUM][0].network, the network the bridge
passes to sendTransaction. -/
def ethDefaultNetwork : Network :=
  match CHAIN_NETWORKS .ethereum with
  | (_, n) :: _ => n
  | [] => ETH_MAINNET

/-- The namespaces object the proposal handler builds: every requested
namespace key receives the single account eip155:1:address together with
the requested methods and events. -/
def buildNamespaces (address : String)
    (req : List (String × RequiredNamespace)) : List (String × NamespaceEntry) :=
  req.map fun p => (p.1, ⟨["eip155:1:" ++ address], p.2.methods, p.2.events⟩)

/-- The body of the wallet-required Alert in handleSessionProposal. -/
def walletRequiredProposalMsg : String :=
  "You need to create or import a wallet before connecting to dApps."

/-- The part of handleSessionProposal after the wallet-existence gate:
look up the address, build the namespaces and approve the session (the
responses the WalletConnect client itself sends are modelled as
succeeding). On a missing address it only shows an error Alert. -/
def proposalApprovalStep (s : WSState) (p : SessionProposal) :
    List BridgeAction :=
  match getWalletAddress s .ethereum with
  | none => [.showAlert "Error" "Wallet address not found"]
  | some addr =>
    [.approveSession p.id (buildNamespaces addr p.requiredNamespaces),
     .showAlert "Connected" ("Connected to " ++ p.proposerName)]

/-- handleSessionProposal: if no ethereum wallet exists, prompt the user
to create one; Cancel ends handling with nothing sent to the peer, while
Create Wallet runs createWallet and retries the handler (which then takes
the approval path). With a wallet present the proposal is approved
directly. -/
def handleSessionProposal (env : Env) (s : WSState) (p : SessionProposal)
    (choice : WalletGateChoice) : List BridgeAction × WSState :=
  if hasWallet s .ethereum then
    (proposalApprovalStep s p, s)
  else
    match choice with
    | .cancel => ([.promptUser "Wallet Required" walletRequiredProposalMsg], s)
    | .create =>
      let created := createWallet env s .ethereum
      let s1 := created.2.2
      (.promptUser "Wallet Required" walletRequiredProposalMsg
         :: .callCreateWallet .ethereum :: proposalApprovalStep s1 p, s1)

/-- The transaction confirmation Alert body, interpolating the request's
to and value fields. -/
def txPromptMessage (toAddr value : String) : String :=
  "Do you want to send this transaction?\n\nTo: " ++ toAddr ++
    "\nValue: " ++ value

/-- handleSessionRequest: eth_sendTransaction and eth_sign/personal_sign
first show a confirmation prompt; Approve invokes the registry operation
and relays the hash/signature via respondSessionRequest on success or a
rejectSession with 'Transaction failed'/'Signing failed' on failure;
Reject relays rejectSession with 'User rejected'. Any other method is
rejected with 'Method not supported' and no prompt. Delivery of the
responses by the WalletConnect client is modelled as succeeding. -/
def handleSessionRequest (env : Env) (s : WSState) (req : SessionRequestEvent)
    (choice : UserChoice) : List BridgeAction :=
  if req.method = "eth_sendTransaction" then
    match choice with
    | .reject =>
      [.promptUser "Transaction Request" (txPromptMessage req.paramTo req.paramValue),
       .rejectSession req.id 4001 "User rejected"]
    | .approve =>
      match (sendTransaction env s .ethereum ethDefaultNetwork req.paramTo req.paramValue).1 with
      | .ok tx =>
        [.promptUser "Transaction Request" (txPromptMessage req.paramTo req.paramValue),
         .callSendTransaction .ethereum ethDefaultNetwork req.paramTo req.paramValue,
         .respondSessionRequest req.topic req.id tx.hash]
      | .error _ =>
        [.promptUser "Transaction Request" (txPromptMessage req.paramTo req.paramValue),
         .callSendTransaction .ethereum ethDefaultNetwork req.paramTo req.paramValue,
         .rejectSession req.id 4001 "Transaction failed"]
  else if req.method = "eth_sign" || req.method = "personal_sign" then
    match choice with
    | .reject =>
      [.promptUser "Signature Request" "Do you want to sign this message?",
       .rejectSession req.id 4001 "User rejected"]
    | .approve =>
      match (signMessage env s .ethereum req.paramMessage).1 with
      | .ok sg =>
        [.promptUser "Signature Request" "Do you want to sign this message?",
         .callSignMessage .ethereum req.paramMessage,
         .respondSessionRequest req.topic req.id sg]
      | .error _ =>
        [.promptUser "Signature Request" "Do you want to sign this message?",
         .callSignMessage .ethereum req.paramMessage,
         .rejectSession req.id 4001 "Signing failed"]
  else
    [.rejectSession req.id 4001 "Method not supported"]

/-- The body of the wallet-required Alert in handleEthereumRequest. -/
def walletRequiredPageMsg : String :=
  "You need to create or import a wallet before connecting."

/-- handleEthereumRequest, the embedded-page provider handler:
eth_requestAccounts returns the address when a wallet exists (silently
returning nothing when the address is null); with no wallet it prompts
for wallet creation, Create Wallet creating one and returning the new
address; any other method receives the 4200 Method-not-supported error
response. -/
def handleEthereumRequest (env : Env) (s : WSState) (req : EthRequest)
    (choice : WalletGateChoice) : List BridgeAction × WSState :=
  if req.method = "eth_requestAccounts" then
    if hasWallet s .ethereum then
      match getWalletAddress s .ethereum with
      | some a => ([.injectResult req.id [a]], s)
      | none => ([], s)
    else
      match choice with
      | .cancel => ([.promptUser "Wallet Required" walletRequiredPageMsg], s)
      | .create =>
        let created := createWallet env s .ethereum
        ([.promptUser "Wallet Required" walletRequiredPageMsg,
          .callCreateWallet .ethereum, .injectResult req.id [created.1]],
         created.2.2)
  else
    ([.injectError req.id 4200 "Method not supported"], s)

/-- Modelled from the spec: maps a CAIP-2 chain identifier to the
ChainType whose registry entry it concerns, to state the claim phrase
"the addresses the Wallet Registry currently holds for the chain that
namespace requests". The repository itself defines no such mapping (it
hardcodes eip155:1), so this definition follows the spec's chain/network
glossary. -/
def specChainOfCaip2 (cid : String) : Option ChainType :=
  if cid = "eip155:1" || cid = "eip155:5" then some .ethereum
  else if cid = "eip155:137" || cid = "eip155:80001" then some .polygon
  else if cid = "solana" then some .solana
  else if cid = "eip155:56" then some .binance
  else none

/-- Modelled from the spec: the chain-agnostic account identifiers
(eip155-style chainId:address) the Wallet Registry currently holds for
the chains a required namespace requests. -/
def specRegistryAccounts (s : WSState) (ns : RequiredNamespace) : List String :=
  ns.chains.foldr (fun cid acc =>
    match specChainOfCaip2 cid with
    | some c =>
      match s.wallets.get c with
      | some w => (cid ++ ":" ++ w.address) :: acc
      | none => acc
    | none => acc) []

/-! Concrete fixtures used by counterexamples and witnesses. -/

/-- A fixed wallet used by the concrete states below. -/
def w0 : EthersWallet := ⟨"0xfeedkey", "0xABC"⟩

/-- A concrete environment: one recognised private key, one recognised
mnemonic, reliable storage, succeeding external clients. -/
def env0 : Env :=
  { randomWallet := ⟨"0xrandkey", "0xRAND"⟩,
    walletFromKey := fun k => if k = "0xfeedkey" then some w0 else none,
    walletFromMnemonic := fun m =>
      if m = "test mnemonic words" then some ⟨"0xmkey", "0xMADDR"⟩ else none,
    storageSetItemOk := fun _ _ => true,
    storageGetItem := fun _ => none,
    providerGetBalance := fun _ _ _ => .ok "1000000000000000000",
    formatEther := fun b => b,
    parseEther := fun a => if a = "" then none else some a,
    sendTx := fun _ _ _ _ _ => .ok "0xhash1",
    sign := fun _ _ => .ok "0xsig1",
    alchemyTokenBalances := fun _ _ _ => [],
    alchemyTokenMetadata := fun _ => ⟨none, none, none, none⟩,
    alchemyAssetTransfers := fun _ _ _ => [],
    now := 1700000000000 }

/-- env0 with a key-value store whose writes always fail. -/
def envNoPersist : Env := { env0 with storageSetItemOk := fun _ _ => false }

/-- The freshly constructed service state: no wallets, no clients. -/
def s0 : WSState := initialState []

/-- A state holding an ethereum wallet with address 0xABC, fully
initialized client tables and the matching persisted key. -/
def sEth : WSState :=
  { wallets := ⟨some w0, none, none, none⟩,
    providers := fixedClientTable, alchemy := fixedClientTable,
    storage := [("wallet_ethereum", "0xfeedkey")] }

/-- A state holding only a solana wallet. -/
def sSol : WSState :=
  { wallets := ⟨none, none, some w0, none⟩,
    providers := [], alchemy := [], storage := [] }

/-! Claims C4, C5, C10, C8. -/

/-- C4: on a chain with hasWallet false, sendTransaction, signMessage and
getBalance always fail with the wallet-not-found error and attempt no
external call of any kind (empty call trace), for every environment,
state, network and argument. -/
theorem c4_wallet_gate (env : Env) (s : WSState) (c : ChainType) (n : Network)
    (toAddr amount msg : String) (h : hasWallet s c = false) :
    getBalance env s c n = (.error .walletNotFound, []) ∧
    sendTransaction env s c n toAddr amount = (.error .walletNotFound, []) ∧
    signMessage env s c msg = (.error .walletNotFound, []) := by
  cases hg : s.wallets.get c with
  | none => simp [getBalance, sendTransaction, signMessage, hg]
  | some w => simp [hasWallet, hg] at h

/-- Witness for c4_wallet_gate at the fresh state and the solana chain. -/
theorem c4_wallet_gate_witness :
    hasWallet s0 ChainType.solana = false ∧
    (getBalance env0 s0 ChainType.solana ETH_MAINNET =
        (.error .walletNotFound, []) ∧
      sendTransaction env0 s0 ChainType.solana ETH_MAINNET "0xdst" "1.0" =
        (.error .walletNotFound, []) ∧
      signMessage env0 s0 ChainType.solana "hello" =
        (.error .walletNotFound, [])) :=
  ⟨rfl, c4_wallet_gate env0 s0 ChainType.solana ETH_MAINNET "0xdst" "1.0" "hello" rfl⟩

/-- C5: importWallet on a private-key string the ethers constructor
rejects fails with the invalid-credential error, attempts no external
call, and leaves the entire state - in-memory registry and persisted
store - unchanged, for every environment, state and chain. -/
theorem c5_import_atomic (env : Env) (s : WSState) (c : ChainType)
    (pk : String) (h : env.walletFromKey pk = none) :
    importWallet env s c pk = (.error .invalidPrivateKey, [], s) := by
  simp [importWallet, h]

/-- Witness for c5_import_atomic: importing a junk key over an existing
ethereum wallet leaves the state with that wallet intact. -/
theorem c5_import_atomic_witness :
    env0.walletFromKey "totally-junk" = none ∧
    importWallet env0 sEth ChainType.ethereum "totally-junk" =
      (.error .invalidPrivateKey, [], sEth) :=
  ⟨by decide, c5_import_atomic env0 sEth ChainType.ethereum "totally-junk" (by decide)⟩

/-- C10: when every key-value store write fails, createWallet,
importWallet (valid key) and importWalletFromMnemonic (valid mnemonic)
still succeed: the in-memory registry is updated, the derived address is
returned, the setItem attempt appears in the trace, and the persisted
store is left unchanged - so memory and store diverge silently. -/
theorem c10_persist_failure (env : Env) (s : WSState) (c : ChainType)
    (pk mn : String) (w w' : EthersWallet)
    (hfail : ∀ k v, env.storageSetItemOk k v = false)
    (hpk : env.walletFromKey pk = some w)
    (hmn : env.walletFromMnemonic mn = some w') :
    createWallet env s c =
      (env.randomWallet.address,
       [.storageSetItem ("wallet_" ++ chainKey c) env.randomWallet.privateKey],
       { s with wallets := s.wallets.set c (some env.randomWallet) }) ∧
    importWallet env s c pk =
      (.ok w.address, [.storageSetItem ("wallet_" ++ chainKey c) pk],
       { s with wallets := s.wallets.set c (some w) }) ∧
    importWalletFromMnemonic env s c mn =
      (.ok w'.address, [.storageSetItem ("wallet_" ++ chainKey c) w'.privateKey],
       { s with wallets := s.wallets.set c (some w') }) := by
  refine ⟨?_, ?_, ?_⟩ <;>
    simp [createWallet, importWallet, importWalletFromMnemonic, saveWallet,
          hfail, hpk, hmn]

/-- Witness for c10_persist_failure: with failing persistence over the
state already holding a persisted ethereum key, createWallet returns the
fresh address and the store still holds the old key. -/
theorem c10_persist_failure_witness :
    (∀ k v, envNoPersist.storageSetItemOk k v = false) ∧
    envNoPersist.walletFromKey "0xfeedkey" = some w0 ∧
    envNoPersist.walletFromMnemonic "test mnemonic words" =
      some ⟨"0xmkey", "0xMADDR"⟩ ∧
    (createWallet envNoPersist sEth ChainType.ethereum =
      ("0xRAND", [.storageSetItem "wallet_ethereum" "0xrandkey"],
       { sEth with wallets := (sEth.wallets.set ChainType.ethereum
           (some envNoPersist.randomWallet)) }) ∧
     importWallet envNoPersist sEth ChainType.ethereum "0xfeedkey" =
      (.ok "0xABC", [.storageSetItem "wallet_ethereum" "0xfeedkey"],
       { sEth with wallets := sEth.wallets.set ChainType.ethereum (some w0) }) ∧
     importWalletFromMnemonic envNoPersist sEth ChainType.ethereum
        "test mnemonic words" =
      (.ok "0xMADDR", [.storageSetItem "wallet_ethereum" "0xmkey"],
       { sEth with wallets := (sEth.wallets.set ChainType.ethereum
           (some ⟨"0xmkey", "0xMADDR"⟩)) })) :=
  ⟨fun _ _ => rfl, by decide, by decide,
   c10_persist_failure envNoPersist sEth ChainType.ethereum "0xfeedkey"
     "test mnemonic words" w0 ⟨"0xmkey", "0xMADDR"⟩
     (fun _ _ => rfl) (by decide) (by decide)⟩

/-- C8 counterexample: on the fresh state (no solana or binance wallet),
getTokenBalances on solana and getTransactionHistory on binance do not
return the empty list - they fail with the wallet-not-found error, so the
claim's unconditional "always return the empty list, not an error" is
false at this input. -/
theorem c8_counterexample :
    (getTokenBalances env0 s0 ChainType.solana ETH_MAINNET).1 =
      .error .walletNotFound ∧
    (getTransactionHistory env0 s0 ChainType.binance ETH_MAINNET).1 =
      .error .walletNotFound :=
  ⟨rfl, rfl⟩

/-- C8 (amended): on solana and binance, provided a wallet exists for the
chain, getTokenBalances and getTransactionHistory return the empty list
with no external call, as an explicit non-support result rather than an
error, for every environment, state and network. -/
theorem c8_amended (env : Env) (s : WSState) (c : ChainType) (n : Network)
    (hc : c = ChainType.solana ∨ c = ChainType.binance)
    (hw : hasWallet s c = true) :
    getTokenBalances env s c n = (.ok [], []) ∧
    getTransactionHistory env s c n = (.ok [], []) := by
  cases hg : s.wallets.get c with
  | none => simp [hasWallet, hg] at hw
  | some w =>
    rcases hc with rfl | rfl <;>
      simp [getTokenBalances, getTransactionHistory, hg]

/-- Witness for c8_amended at a state holding a solana wallet. -/
theorem c8_amended_witness :
    hasWallet sSol ChainType.solana = true ∧
    (getTokenBalances env0 sSol ChainType.solana MATIC_MUMBAI = (.ok [], []) ∧
     getTransactionHistory env0 sSol ChainType.solana MATIC_MUMBAI = (.ok [], [])) :=
  ⟨rfl, c8_amended env0 sSol ChainType.solana MATIC_MUMBAI (Or.inl rfl) rfl⟩

/-- A session proposal requiring the eip155:1 namespace. -/
def p0 : SessionProposal :=
  ⟨1, "TestDapp",
   [("eip155", ⟨["eip155:1"], ["eth_sendTransaction", "personal_sign"],
     ["chainChanged"]⟩)]⟩

/-- A session proposal whose namespace requests the polygon chain. -/
def p2 : SessionProposal :=
  ⟨7, "CrossChainDapp", [("eip155", ⟨["eip155:137"], ["eth_sendTransaction"], []⟩)]⟩

/-- A concrete eth_sendTransaction session request. -/
def reqTx : SessionRequestEvent :=
  ⟨10, "topic1", "eth_sendTransaction", "0xDst", "0.5", ""⟩

/-- A concrete session request with an unrecognized method. -/
def reqOdd : SessionRequestEvent :=
  ⟨11, "topic1", "wallet_switchEthereumChain", "", "", ""⟩

/-- A concrete embedded-page eth_requestAccounts request. -/
def reqAccounts : EthRequest := ⟨3, "eth_requestAccounts"⟩

/-- A concrete embedded-page request with an unsupported method. -/
def reqChainId : EthRequest := ⟨4, "eth_chainId"⟩

/-! Claims C3, C6, C7. -/

/-- C3: for an eth_sendTransaction session request, tapping Approve makes
exactly one sendTransaction registry call whose to and value arguments
are the very strings interpolated into the confirmation prompt, and
tapping Reject makes zero sendTransaction calls - for every environment,
state and request. -/
theorem c3_tx_confirmation (env : Env) (s : WSState) (req : SessionRequestEvent)
    (choice : UserChoice) (h : req.method = "eth_sendTransaction") :
    (choice = .approve →
      (handleSessionRequest env s req choice).filter BridgeAction.isSendTxCall =
        [.callSendTransaction .ethereum ethDefaultNetwork req.paramTo req.paramValue] ∧
      .promptUser "Transaction Request" (txPromptMessage req.paramTo req.paramValue)
        ∈ handleSessionRequest env s req choice) ∧
    (choice = .reject →
      (handleSessionRequest env s req choice).filter BridgeAction.isSendTxCall = [] ∧
      .promptUser "Transaction Request" (txPromptMessage req.paramTo req.paramValue)
        ∈ handleSessionRequest env s req choice) := by
  cases choice with
  | approve =>
    refine ⟨fun _ => ?_, fun hc => nomatch hc⟩
    cases hr : (sendTransaction env s .ethereum ethDefaultNetwork req.paramTo req.paramValue).1 <;>
      simp [handleSessionRequest, h, hr, BridgeAction.isSendTxCall]
  | reject =>
    refine ⟨fun hc => (nomatch hc), fun _ => ?_⟩
    simp [handleSessionRequest, h, BridgeAction.isSendTxCall]

/-- Witness for c3_tx_confirmation at a concrete approved request. -/
theorem c3_tx_confirmation_witness :
    reqTx.method = "eth_sendTransaction" ∧
    ((UserChoice.approve = UserChoice.approve →
      (handleSessionRequest env0 sEth reqTx UserChoice.approve).filter
          BridgeAction.isSendTxCall =
        [.callSendTransaction .ethereum ethDefaultNetwork reqTx.paramTo reqTx.paramValue] ∧
      .promptUser "Transaction Request" (txPromptMessage reqTx.paramTo reqTx.paramValue)
        ∈ handleSessionRequest env0 sEth reqTx UserChoice.approve) ∧
     (UserChoice.approve = UserChoice.reject →
      (handleSessionRequest env0 sEth reqTx UserChoice.approve).filter
          BridgeAction.isSendTxCall = [] ∧
      .promptUser "Transaction Request" (txPromptMessage reqTx.paramTo reqTx.paramValue)
        ∈ handleSessionRequest env0 sEth reqTx UserChoice.approve)) :=
  ⟨rfl, c3_tx_confirmation env0 sEth reqTx UserChoice.approve rfl⟩

/-- C6: a session request whose method is none of eth_sendTransaction,
eth_sign, personal_sign is answered solely by a rejection carrying the
message Method not supported (code 4001) with no Wallet Registry call,
and the embedded-page provider answers any method other than
eth_requestAccounts with the 4200 Method not supported error response,
likewise without touching the registry. -/
theorem c6_unsupported_method (env : Env) (s : WSState)
    (req : SessionRequestEvent) (choice : UserChoice) (ereq : EthRequest)
    (gchoice : WalletGateChoice)
    (h1 : req.method ≠ "eth_sendTransaction")
    (h2 : req.method ≠ "eth_sign")
    (h3 : req.method ≠ "personal_sign")
    (h4 : ereq.method ≠ "eth_requestAccounts") :
    handleSessionRequest env s req choice =
      [.rejectSession req.id 4001 "Method not supported"] ∧
    (handleSessionRequest env s req choice).all
      (fun a => !a.isRegistryCall) = true ∧
    handleEthereumRequest env s ereq gchoice =
      ([.injectError ereq.id 4200 "Method not supported"], s) ∧
    ((handleEthereumRequest env s ereq gchoice).1).all
      (fun a => !a.isRegistryCall) = true := by
  have e1 : handleSessionRequest env s req choice =
      [.rejectSession req.id 4001 "Method not supported"] := by
    simp [handleSessionRequest, h1, h2, h3]
  have e2 : handleEthereumRequest env s ereq gchoice =
      ([.injectError ereq.id 4200 "Method not supported"], s) := by
    simp [handleEthereumRequest, h4]
  refine ⟨e1, ?_, e2, ?_⟩ <;> simp [e1, e2, BridgeAction.isRegistryCall]

/-- Witness for c6_unsupported_method at two concrete unsupported
requests. -/
theorem c6_unsupported_method_witness :
    reqOdd.method ≠ "eth_sendTransaction" ∧
    reqOdd.method ≠ "eth_sign" ∧
    reqOdd.method ≠ "personal_sign" ∧
    reqChainId.method ≠ "eth_requestAccounts" ∧
    (handleSessionRequest env0 sEth reqOdd UserChoice.approve =
       [.rejectSession reqOdd.id 4001 "Method not supported"] ∧
     (handleSessionRequest env0 sEth reqOdd UserChoice.approve).all
       (fun a => !a.isRegistryCall) = true ∧
     handleEthereumRequest env0 sEth reqChainId WalletGateChoice.cancel =
       ([.injectError reqChainId.id 4200 "Method not supported"], sEth) ∧
     ((handleEthereumRequest env0 sEth reqChainId WalletGateChoice.cancel).1).all
       (fun a => !a.isRegistryCall) = true) :=
  ⟨by decide, by decide, by decide, by decide,
   c6_unsupported_method env0 sEth reqOdd UserChoice.approve reqChainId
     WalletGateChoice.cancel (by decide) (by decide) (by decide) (by decide)⟩

/-- C7 counterexample: a session proposal arriving when no ethereum
wallet exists (a failing wallet-existence gate) whose prompt the user
cancels is handled by showing only the local wallet-required dialog; no
rejection - indeed no message at all - is relayed to the remote peer, so
the proposal is left unanswered, contradicting the claim. -/
theorem c7_counterexample :
    (handleSessionProposal env0 s0 p0 WalletGateChoice.cancel).1 =
      [.promptUser "Wallet Required" walletRequiredProposalMsg] ∧
    ((handleSessionProposal env0 s0 p0 WalletGateChoice.cancel).1).all
      (fun a => !a.isPeerResponse) = true :=
  ⟨rfl, rfl⟩

/-- C7 (amended): every session request - transaction, signing or
unsupported, approved or rejected, succeeding or failing - is answered
with exactly one message to the remote peer (a result response or a
structured rejection); session proposals, by contrast, are answered only
on the approval path, their failures surfacing solely as local dialogs. -/
theorem c7_amended (env : Env) (s : WSState) (req : SessionRequestEvent)
    (choice : UserChoice) :
    (handleSessionRequest env s req choice).countP
      (fun a => a.isPeerResponse) = 1 := by
  by_cases h1 : req.method = "eth_sendTransaction"
  · cases choice with
    | approve =>
      cases hr : (sendTransaction env s .ethereum ethDefaultNetwork req.paramTo req.paramValue).1 <;>
        simp [handleSessionRequest, h1, hr, BridgeAction.isPeerResponse,
              List.countP_cons]
    | reject =>
      simp [handleSessionRequest, h1, BridgeAction.isPeerResponse,
            List.countP_cons]
  · by_cases h2 : req.method = "eth_sign"
    · cases choice with
      | approve =>
        cases hr : (signMessage env s .ethereum req.paramMessage).1 <;>
          simp [handleSessionRequest, h1, h2, hr, BridgeAction.isPeerResponse,
                List.countP_cons]
      | reject =>
        simp [handleSessionRequest, h1, h2, BridgeAction.isPeerResponse,
              List.countP_cons]
    · by_cases h3 : req.method = "personal_sign"
      · cases choice with
        | approve =>
          cases hr : (signMessage env s .ethereum req.paramMessage).1 <;>
            simp [handleSessionRequest, h1, h2, h3, hr,
                  BridgeAction.isPeerResponse, List.countP_cons]
        | reject =>
          simp [handleSessionRequest, h1, h2, h3, BridgeAction.isPeerResponse,
                List.countP_cons]
      · simp [handleSessionRequest, h1, h2, h3, BridgeAction.isPeerResponse,
              List.countP_cons]

/-! Claims C1 and C2. -/

/-- C1 counterexample: with an ethereum wallet present, the bridge
approves a session proposal (disclosing the account to the dApp) and
answers eth_requestAccounts with the address, in both cases without a
single user-approval prompt anywhere in the handling - the operations are
auto-approved, contradicting the claim. -/
theorem c1_counterexample :
    ((handleSessionProposal env0 sEth p0 WalletGateChoice.cancel).1).any
        BridgeAction.isDisclosingOrStateChanging = true ∧
    ((handleSessionProposal env0 sEth p0 WalletGateChoice.cancel).1).any
        BridgeAction.isApprovalPrompt = false ∧
    ((handleEthereumRequest env0 sEth reqAccounts WalletGateChoice.cancel).1).any
        BridgeAction.isDisclosingOrStateChanging = true ∧
    ((handleEthereumRequest env0 sEth reqAccounts WalletGateChoice.cancel).1).any
        BridgeAction.isApprovalPrompt = false :=
  ⟨rfl, rfl, rfl, rfl⟩

/-- C1 (amended): only the transaction and signing session requests pass
through an explicit user-approval step - their traces start with the
confirmation prompt, a registry call occurs only on an explicit Approve
tap, and a Reject tap yields no registry call; session-proposal approval,
by contrast, happens without any approval prompt whenever an ethereum
wallet exists. -/
theorem c1_amended (env : Env) (s : WSState) (req : SessionRequestEvent)
    (choice : UserChoice) (p : SessionProposal) (gchoice : WalletGateChoice)
    (h : req.method = "eth_sendTransaction" ∨ req.method = "eth_sign" ∨
         req.method = "personal_sign") :
    (handleSessionRequest env s req choice).head?.map
        BridgeAction.isApprovalPrompt = some true ∧
    ((handleSessionRequest env s req choice).any BridgeAction.isRegistryCall = true
        → choice = .approve) ∧
    (choice = .reject →
        (handleSessionRequest env s req choice).any BridgeAction.isRegistryCall = false) ∧
    (hasWallet s .ethereum = true →
        ((handleSessionProposal env s p gchoice).1).any
          BridgeAction.isApprovalPrompt = false) := by
  have hprop : hasWallet s .ethereum = true →
      ((handleSessionProposal env s p gchoice).1).any
        BridgeAction.isApprovalPrompt = false := by
    intro hw
    cases hga : getWalletAddress s .ethereum <;>
      simp [handleSessionProposal, hw, proposalApprovalStep, hga,
            BridgeAction.isApprovalPrompt]
  rcases h with h | h | h
  · cases choice with
    | approve =>
      cases hr : (sendTransaction env s .ethereum ethDefaultNetwork req.paramTo req.paramValue).1 with
      | ok tx =>
        have e : handleSessionRequest env s req .approve =
            [.promptUser "Transaction Request" (txPromptMessage req.paramTo req.paramValue),
             .callSendTransaction .ethereum ethDefaultNetwork req.paramTo req.paramValue,
             .respondSessionRequest req.topic req.id tx.hash] := by
          simp [handleSessionRequest, h, hr]
        exact ⟨by rw [e]; rfl, fun _ => rfl, fun hc => (nomatch hc), hprop⟩
      | error er =>
        have e : handleSessionRequest env s req .approve =
            [.promptUser "Transaction Request" (txPromptMessage req.paramTo req.paramValue),
             .callSendTransaction .ethereum ethDefaultNetwork req.paramTo req.paramValue,
             .rejectSession req.id 4001 "Transaction failed"] := by
          simp [handleSessionRequest, h, hr]
        exact ⟨by rw [e]; rfl, fun _ => rfl, fun hc => (nomatch hc), hprop⟩
    | reject =>
      have e : handleSessionRequest env s req .reject =
          [.promptUser "Transaction Request" (txPromptMessage req.paramTo req.paramValue),
           .rejectSession req.id 4001 "User rejected"] := by
        simp [handleSessionRequest, h]
      refine ⟨by rw [e]; rfl, fun hx => ?_, fun _ => by rw [e]; rfl, hprop⟩
      rw [e] at hx
      simp [BridgeAction.isRegistryCall] at hx
  · cases choice with
    | approve =>
      cases hr : (signMessage env s .ethereum req.paramMessage).1 with
      | ok sg =>
        have e : handleSessionRequest env s req .approve =
            [.promptUser "Signature Request" "Do you want to sign this message?",
             .callSignMessage .ethereum req.paramMessage,
             .respondSessionRequest req.topic req.id sg] := by
          simp [handleSessionRequest, h, hr]
        exact ⟨by rw [e]; rfl, fun _ => rfl, fun hc => (nomatch hc), hprop⟩
      | error er =>
        have e : handleSessionRequest env s req .approve =
            [.promptUser "Signature Request" "Do you want to sign this message?",
             .callSignMessage .ethereum req.paramMessage,
             .rejectSession req.id 4001 "Signing failed"] := by
          simp [handleSessionRequest, h, hr]
        exact ⟨by rw [e]; rfl, fun _ => rfl, fun hc => (nomatch hc), hprop⟩
    | reject =>
      have e : handleSessionRequest env s req .reject =
          [.promptUser "Signature Request" "Do you want to sign this message?",
           .rejectSession req.id 4001 "User rejected"] := by
        simp [handleSessionRequest, h]
      refine ⟨by rw [e]; rfl, fun hx => ?_, fun _ => by rw [e]; rfl, hprop⟩
      rw [e] at hx
      simp [BridgeAction.isRegistryCall] at hx
  · cases choice with
    | approve =>
      cases hr : (signMessage env s .ethereum req.paramMessage).1 with
      | ok sg =>
        have e : handleSessionRequest env s req .approve =
            [.promptUser "Signature Request" "Do you want to sign this message?",
             .callSignMessage .ethereum req.paramMessage,
             .respondSessionRequest req.topic req.id sg] := by
          simp [handleSessionRequest, h, hr]
        exact ⟨by rw [e]; rfl, fun _ => rfl, fun hc => (nomatch hc), hprop⟩
      | error er =>
        have e : handleSessionRequest env s req .approve =
            [.promptUser "Signature Request" "Do you want to sign this message?",
             .callSignMessage .ethereum req.paramMessage,
             .rejectSession req.id 4001 "Signing failed"] := by
          simp [handleSessionRequest, h, hr]
        exact ⟨by rw [e]; rfl, fun _ => rfl, fun hc => (nomatch hc), hprop⟩
    | reject =>
      have e : handleSessionRequest env s req .reject =
          [.promptUser "Signature Request" "Do you want to sign this message?",
           .rejectSession req.id 4001 "User rejected"] := by
        simp [handleSessionRequest, h]
      refine ⟨by rw [e]; rfl, fun hx => ?_, fun _ => by rw [e]; rfl, hprop⟩
      rw [e] at hx
      simp [BridgeAction.isRegistryCall] at hx

/-- Witness for c1_amended at a concrete rejected signing request. -/
theorem c1_amended_witness :
    (reqTx.method = "eth_sendTransaction" ∨ reqTx.method = "eth_sign" ∨
       reqTx.method = "personal_sign") ∧
    ((handleSessionRequest env0 sEth reqTx UserChoice.reject).head?.map
        BridgeAction.isApprovalPrompt = some true ∧
     ((handleSessionRequest env0 sEth reqTx UserChoice.reject).any
          BridgeAction.isRegistryCall = true → UserChoice.reject = .approve) ∧
     (UserChoice.reject = UserChoice.reject →
        (handleSessionRequest env0 sEth reqTx UserChoice.reject).any
          BridgeAction.isRegistryCall = false) ∧
     (hasWallet sEth .ethereum = true →
        ((handleSessionProposal env0 sEth p0 WalletGateChoice.cancel).1).any
          BridgeAction.isApprovalPrompt = false)) :=
  ⟨Or.inl rfl,
   c1_amended env0 sEth reqTx UserChoice.reject p0 WalletGateChoice.cancel
     (Or.inl rfl)⟩

/-- C2 counterexample: with only an ethereum wallet (address 0xABC), the
bridge approves a proposal whose namespace requests the polygon chain
eip155:137 by placing the account eip155:1:0xABC into it, although the
registry holds no address at all for the requested chain - the accounts
placed are not a subset of the registry's addresses for that chain. -/
theorem c2_counterexample :
    (handleSessionProposal env0 sEth p2 WalletGateChoice.cancel).1 =
      [.approveSession 7
         [("eip155", ⟨["eip155:1:0xABC"], ["eth_sendTransaction"], []⟩)],
       .showAlert "Connected" "Connected to CrossChainDapp"] ∧
    specRegistryAccounts sEth ⟨["eip155:137"], ["eth_sendTransaction"], []⟩ = [] ∧
    "eip155:1:0xABC" ∈ (["eip155:1:0xABC"] : List String) ∧
    "eip155:1:0xABC" ∉ ([] : List String) := by
  refine ⟨rfl, rfl, ?_, ?_⟩ <;> simp

/-- C2 (amended): whenever the registry's ethereum wallet has address A,
an approved proposal's namespaces each carry exactly the single account
eip155:1:A - regardless of which chains the namespace requested; in the
special case where a namespace requests exactly eip155:1 (the spec's
scenario), that account list coincides with the accounts the registry
holds for the requested chain. -/
theorem c2_amended (env : Env) (s : WSState) (p : SessionProposal)
    (gchoice : WalletGateChoice) (A : String)
    (hA : getWalletAddress s ChainType.ethereum = some A) :
    (handleSessionProposal env s p gchoice).1 =
      [.approveSession p.id (p.requiredNamespaces.map fun q =>
          (q.1, ⟨["eip155:1:" ++ A], q.2.methods, q.2.events⟩)),
       .showAlert "Connected" ("Connected to " ++ p.proposerName)] ∧
    (∀ q ∈ p.requiredNamespaces, q.2.chains = ["eip155:1"] →
       specRegistryAccounts s q.2 = ["eip155:1:" ++ A]) := by
  have hwal : ∃ w, s.wallets.get .ethereum = some w ∧ w.address = A := by
    unfold getWalletAddress at hA
    cases hg : s.wallets.get .ethereum with
    | none => rw [hg] at hA; exact absurd hA (by simp)
    | some w =>
      rw [hg] at hA
      by_cases he : w.address = ""
      · simp [he] at hA
      · simp [he] at hA
        exact ⟨w, rfl, hA⟩
  obtain ⟨w, hg, haddr⟩ := hwal
  have hw : hasWallet s .ethereum = true := by simp [hasWallet, hg]
  refine ⟨?_, ?_⟩
  · simp [handleSessionProposal, hw, proposalApprovalStep, hA, buildNamespaces]
  · intro q _ hchains
    simp [specRegistryAccounts, hchains, specChainOfCaip2, hg, haddr]

/-- Witness for c2_amended at the eip155:1 scenario of the spec. -/
theorem c2_amended_witness :
    getWalletAddress sEth ChainType.ethereum = some "0xABC" ∧
    ((handleSessionProposal env0 sEth p0 WalletGateChoice.create).1 =
      [.approveSession p0.id (p0.requiredNamespaces.map fun q =>
          (q.1, ⟨["eip155:1:" ++ "0xABC"], q.2.methods, q.2.events⟩)),
       .showAlert "Connected" ("Connected to " ++ p0.proposerName)] ∧
     (∀ q ∈ p0.requiredNamespaces, q.2.chains = ["eip155:1"] →
        specRegistryAccounts sEth q.2 = ["eip155:1:" ++ "0xABC"])) :=
  ⟨rfl, c2_amended env0 sEth p0 WalletGateChoice.create "0xABC" rfl⟩

/-! Claim C9. -/

/-- A state with an ethereum wallet but empty client tables. -/
def sNoClients : WSState :=
  { wallets := ⟨some w0, none, none, none⟩,
    providers := [], alchemy := [], storage := [] }

/-- Loading wallets never touches the client tables. -/
theorem loadWalletsGo_clients (env : Env) (s : WSState) (l : List ChainType) :
    (loadWalletsGo env s l).1.providers = s.providers ∧
    (loadWalletsGo env s l).1.alchemy = s.alchemy := by
  induction l generalizing s with
  | nil => exact ⟨rfl, rfl⟩
  | cons c rest ih =>
    unfold loadWalletsGo
    dsimp only []
    split
    · exact ih s
    · split
      · exact ih s
      · split
        · exact ⟨rfl, rfl⟩
        · exact ih _

/-- C9: (a) with a wallet present, every operation needing a client for a
(chain, network) pair absent from the relevant table fails with the
corresponding configuration error and attempts no external call at all;
(b) wallet creation/import and both bridge handlers leave the provider
and Alchemy tables unchanged; (c) initialize produces exactly the effect
of assigning the four fixed client keys - the tables are written only by
initialization, never lazily extended. -/
theorem c9_client_tables (env : Env) (s : WSState) (c : ChainType)
    (n : Network) (toAddr amount pk mn : String) (p : SessionProposal)
    (req : EthRequest) (gchoice : WalletGateChoice) :
    (hasWallet s c = true → registeredIn s.providers c n = false →
      getBalance env s c n = (.error (.providerNotFound c n), []) ∧
      sendTransaction env s c n toAddr amount =
        (.error (.providerNotFound c n), [])) ∧
    (hasWallet s c = true → registeredIn s.alchemy c n = false →
      (c = ChainType.ethereum ∨ c = ChainType.polygon) →
      getTokenBalances env s c n = (.error (.alchemyNotFound c n), []) ∧
      getTransactionHistory env s c n = (.error (.alchemyNotFound c n), [])) ∧
    ((createWallet env s c).2.2.providers = s.providers ∧
     (createWallet env s c).2.2.alchemy = s.alchemy) ∧
    ((importWallet env s c pk).2.2.providers = s.providers ∧
     (importWallet env s c pk).2.2.alchemy = s.alchemy) ∧
    ((importWalletFromMnemonic env s c mn).2.2.providers = s.providers ∧
     (importWalletFromMnemonic env s c mn).2.2.alchemy = s.alchemy) ∧
    ((handleSessionProposal env s p gchoice).2.providers = s.providers ∧
     (handleSessionProposal env s p gchoice).2.alchemy = s.alchemy) ∧
    ((handleEthereumRequest env s req gchoice).2.providers = s.providers ∧
     (handleEthereumRequest env s req gchoice).2.alchemy = s.alchemy) ∧
    ((serviceInit env s).1.providers =
       fixedClientTable.foldl upsertClient s.providers ∧
     (serviceInit env s).1.alchemy =
       fixedClientTable.foldl upsertClient s.alchemy) := by
  have hcw : ∀ (s' : WSState) (c' : ChainType),
      (createWallet env s' c').2.2.providers = s'.providers ∧
      (createWallet env s' c').2.2.alchemy = s'.alchemy := by
    intro s' c'
    unfold createWallet saveWallet
    by_cases hok : env.storageSetItemOk ("wallet_" ++ chainKey c')
        env.randomWallet.privateKey <;> simp [hok]
  refine ⟨?_, ?_, hcw s c, ?_, ?_, ?_, ?_, ?_⟩
  · intro hw hreg
    cases hg : s.wallets.get c with
    | none => simp [hasWallet, hg] at hw
    | some w => simp [getBalance, sendTransaction, hg, hreg]
  · intro hw hreg hcp
    cases hg : s.wallets.get c with
    | none => simp [hasWallet, hg] at hw
    | some w =>
      rcases hcp with rfl | rfl <;>
        simp [getTokenBalances, getTransactionHistory, hg, hreg]
  · unfold importWallet saveWallet
    cases env.walletFromKey pk with
    | none => exact ⟨rfl, rfl⟩
    | some w =>
      by_cases hok : env.storageSetItemOk ("wallet_" ++ chainKey c) pk <;>
        simp [hok]
  · unfold importWalletFromMnemonic saveWallet
    cases env.walletFromMnemonic mn with
    | none => exact ⟨rfl, rfl⟩
    | some w =>
      by_cases hok : env.storageSetItemOk ("wallet_" ++ chainKey c)
          w.privateKey <;> simp [hok]
  · unfold handleSessionProposal
    by_cases hw : hasWallet s .ethereum
    · simp [hw]
    · cases gchoice with
      | cancel => simp [hw]
      | create => simpa [hw] using hcw s .ethereum
  · unfold handleEthereumRequest
    by_cases hm : req.method = "eth_requestAccounts"
    · by_cases hw : hasWallet s .ethereum
      · cases hga : getWalletAddress s .ethereum <;> simp [hm, hw, hga]
      · cases gchoice with
        | cancel => simp [hm, hw]
        | create => simpa [hm, hw] using hcw s .ethereum
    · simp [hm]
  · unfold serviceInit setupProviders
    have hl := loadWalletsGo_clients env s [.ethereum, .polygon, .solana, .binance]
    exact ⟨by simp [loadWallets, hl.1], by simp [loadWallets, hl.2]⟩

/-- Witness for c9_client_tables: a wallet with empty client tables fails
all four client-dependent operations with configuration errors and no
call, and initialization from the fresh state installs exactly the four
fixed keys. -/
theorem c9_client_tables_witness :
    hasWallet sNoClients ChainType.ethereum = true ∧
    registeredIn sNoClients.providers ChainType.ethereum ETH_MAINNET = false ∧
    registeredIn sNoClients.alchemy ChainType.ethereum ETH_MAINNET = false ∧
    (getBalance env0 sNoClients ChainType.ethereum ETH_MAINNET =
       (.error (.providerNotFound ChainType.ethereum ETH_MAINNET), []) ∧
     sendTransaction env0 sNoClients ChainType.ethereum ETH_MAINNET "0xdst" "1.0" =
       (.error (.providerNotFound ChainType.ethereum ETH_MAINNET), [])) ∧
    (getTokenBalances env0 sNoClients ChainType.ethereum ETH_MAINNET =
       (.error (.alchemyNotFound ChainType.ethereum ETH_MAINNET), []) ∧
     getTransactionHistory env0 sNoClients ChainType.ethereum ETH_MAINNET =
       (.error (.alchemyNotFound ChainType.ethereum ETH_MAINNET), [])) ∧
    (createWallet env0 sNoClients ChainType.ethereum).2.2.providers =
      sNoClients.providers ∧
    (serviceInit env0 s0).1.providers =
      List.foldl upsertClient s0.providers fixedClientTable := by
  have h := c9_client_tables env0 sNoClients ChainType.ethereum ETH_MAINNET
    "0xdst" "1.0" "k" "m" p0 reqAccounts WalletGateChoice.cancel
  have h9 := c9_client_tables env0 s0 ChainType.ethereum ETH_MAINNET
    "0xdst" "1.0" "k" "m" p0 reqAccounts WalletGateChoice.cancel
  exact ⟨rfl, rfl, rfl, h.1 rfl rfl, h.2.1 rfl rfl (Or.inl rfl),
    (h.2.2.1).1, (h9.2.2.2.2.2.2.2).1⟩
